import Mathlib

/-!
Verification of the XRTC python client (xrtc-sdk-python) against its
natural-language specification.

The development shallowly embeds the two API context managers
(`src/xrtc/api/context_manager.py`, class `XRTC`, and
`src/xrtc/api/async_context_manager.py`, class `AXRTC`) together with the
pydantic data models of `src/xrtc/api/data_models.py`.  Network I/O is made
explicit: each operation is a pure function of its arguments and of the
transport's answer (a status/body, a transport-level failure, or — for the
streaming async reader — a list of body chunks).  JSON serialization
(`pydantic .json(exclude_defaults=True)`, i.e. `json.dumps` with its default
`", "`/`": "` separators and `ensure_ascii=True`) and JSON parsing
(`pydantic .parse_raw`, i.e. `json.loads` followed by field validation) are
modelled executably.  Model scope notes: JSON numbers are modelled on their
integer fragment (the protocol only carries integer timestamps and counts),
and lone UTF-16 surrogates — representable in python `str` but not in Lean
`Char` — are rejected by the modelled string reader.
-/

namespace Xrtc

/-! ## Data models (`src/xrtc/api/data_models.py`) -/

/-- `Item` — pydantic model: `portalid: str`, `payload: str`,
`servertimestamp: int = 0`. -/
structure Item where
  portalid : String
  payload : String
  servertimestamp : Int := 0
deriving DecidableEq

/-- `Portal` — pydantic model: `portalid: str`, `servertimestamp: int = 0`. -/
structure Portal where
  portalid : String
  servertimestamp : Int := 0
deriving DecidableEq

/-- `SetItemRequest` — pydantic model: `items: list[Item]`. -/
structure SetItemRequest where
  items : List Item
deriving DecidableEq

/-- `GetItemRequest` — pydantic model: `portals: list[Portal]`,
`mode: Literal["probe", "watch", "stream"] = "probe"`,
`schedule: Literal["LIFO", "FIFO"] = "LIFO"`, `cutoff: int = -1`. -/
structure GetItemRequest where
  portals : List Portal
  mode : String := "probe"
  schedule : String := "LIFO"
  cutoff : Int := -1
deriving DecidableEq

/-- `LoginResponseData` — pydantic model: `servertimestamp: int = 0`. -/
structure LoginResponseData where
  servertimestamp : Int := 0
deriving DecidableEq

/-- `ReceivedData` — pydantic model: `items: list[Item] = None`.
A `None` default makes the pydantic v1 field optional, hence `Option`. -/
structure ReceivedData where
  items : Option (List Item) := none
deriving DecidableEq

/-- `Error` — pydantic model: `errorgroup: int = 0`, `errorcode: int = 0`,
`errormessage: str = None` (optional by its `None` default). -/
structure Error where
  errorgroup : Int := 0
  errorcode : Int := 0
  errormessage : Option String := none
deriving DecidableEq

/-- `ReceivedError` — pydantic model: `error: Error = None`. -/
structure ReceivedError where
  error : Option Error := none
deriving DecidableEq

/-- `XRTCException` — the custom exception of `data_models.py`.  When built
with a `url`, its `__init__` stores
`self.message = "XRTC URL: " + url + ": " + message`; `str(exc)` returns that
message. -/
structure XRTCException where
  message : String
deriving DecidableEq

/-- The `url`-tagged constructor branch of `XRTCException.__init__`. -/
def XRTCException.withUrl (url msg : String) : XRTCException :=
  ⟨"XRTC URL: " ++ url ++ ": " ++ msg⟩

/-- `ConnectionConfiguration` — the resolved connection settings, with the
defaults declared in `data_models.py` (only the fields the protocol logic
reads are modelled). -/
structure ConnectionConfiguration where
  login_url : String := "https://api.xrtc.org/v1/auth/login"
  set_url : String := "https://api.xrtc.org/v1/item/set"
  get_url : String := "https://api.xrtc.org/v1/item/get"
  serialized_json_size_max : Nat := 65536
  aiohttp_limit_concurrent_requests : Nat := 25
deriving DecidableEq

/-- The all-defaults configuration (`ConnectionConfiguration()`). -/
def defaultConfig : ConnectionConfiguration := {}

/-! ## JSON values and serialization

`pydantic.BaseModel.json()` is `json.dumps` of the model's dict: default
separators `", "` and `": "`, `ensure_ascii=True` (every character outside
`0x20`–`0x7e` is `\uXXXX`-escaped, using a surrogate pair above `0xffff`). -/

/-- A JSON value (integer fragment for numbers). -/
inductive JValue where
  | jnull
  | jbool (b : Bool)
  | jnum (n : Int)
  | jstr (s : String)
  | jarr (elems : List JValue)
  | jobj (fields : List (String × JValue))

/-- Lower-case hexadecimal digit, as produced by `json.dumps`. -/
def hexDig (n : Nat) : Char :=
  if n < 10 then Char.ofNat (48 + n) else Char.ofNat (87 + n)

/-- Four-digit hexadecimal rendering used by the `\uXXXX` escapes. -/
def hex4 (n : Nat) : String :=
  String.mk [hexDig (n / 4096 % 16), hexDig (n / 256 % 16), hexDig (n / 16 % 16), hexDig (n % 16)]

/-- `json.dumps` escaping of one character (`ensure_ascii=True`). -/
def escapeChar (c : Char) : String :=
  if c = '"' then "\\\""
  else if c = '\\' then "\\\\"
  else if c = '\n' then "\\n"
  else if c = '\t' then "\\t"
  else if c = '\r' then "\\r"
  else if c = '\x08' then "\\b"
  else if c = '\x0c' then "\\f"
  else if c.toNat < 0x20 then "\\u" ++ hex4 c.toNat
  else if c.toNat < 0x7f then String.mk [c]
  else if c.toNat ≤ 0xffff then "\\u" ++ hex4 c.toNat
  else
    "\\u" ++ hex4 (0xd800 + (c.toNat - 0x10000) / 0x400) ++
      "\\u" ++ hex4 (0xdc00 + (c.toNat - 0x10000) % 0x400)

/-- Escape a character list (body of a JSON string literal). -/
def escChars : List Char → String
  | [] => ""
  | c :: cs => escapeChar c ++ escChars cs

/-- A JSON string literal. -/
def renderStr (s : String) : String :=
  "\"" ++ escChars s.data ++ "\""

/-- `Item` as serialized by `SetItemRequest(...).json(exclude_defaults=True)`:
fields in declaration order, `servertimestamp` omitted when it equals its
default `0`. -/
def renderItemED (i : Item) : String :=
  "\x7b\"portalid\": " ++ renderStr i.portalid ++ ", \"payload\": " ++ renderStr i.payload ++
    (if i.servertimestamp = 0 then "" else ", \"servertimestamp\": " ++ toString i.servertimestamp) ++
    "\x7d"

/-- Comma-separated item list (the `json.dumps` array body). -/
def renderItemList : List Item → String
  | [] => ""
  | [i] => renderItemED i
  | i :: is => renderItemED i ++ ", " ++ renderItemList is

/-- `SetItemRequest(items=...).json(exclude_defaults=True)`: `items` is a
required field, so it is always present. -/
def renderSetItemRequest (r : SetItemRequest) : String :=
  "\x7b\"items\": [" ++ renderItemList r.items ++ "]\x7d"

/-- `Portal` with `exclude_defaults=True`: `servertimestamp` omitted when `0`. -/
def renderPortalED (p : Portal) : String :=
  "\x7b\"portalid\": " ++ renderStr p.portalid ++
    (if p.servertimestamp = 0 then "" else ", \"servertimestamp\": " ++ toString p.servertimestamp) ++
    "\x7d"

/-- Comma-separated portal list. -/
def renderPortalList : List Portal → String
  | [] => ""
  | [p] => renderPortalED p
  | p :: ps => renderPortalED p ++ ", " ++ renderPortalList ps

/-- `GetItemRequest(...).json(exclude_defaults=True)`: `portals` is required;
`mode`, `schedule`, `cutoff` are omitted exactly when equal to their defaults
`"probe"`, `"LIFO"`, `-1`. -/
def renderGetItemRequest (r : GetItemRequest) : String :=
  "\x7b\"portals\": [" ++ renderPortalList r.portals ++ "]" ++
    (if r.mode = "probe" then "" else ", \"mode\": " ++ renderStr r.mode) ++
    (if r.schedule = "LIFO" then "" else ", \"schedule\": " ++ renderStr r.schedule) ++
    (if r.cutoff = -1 then "" else ", \"cutoff\": " ++ toString r.cutoff) ++
    "\x7d"

/-! ## JSON parsing (`json.loads`, as invoked by `pydantic .parse_raw`)

A fuel-indexed recursive-descent reader over the character list.  `json.loads`
accepts surrounding whitespace and rejects trailing non-whitespace; strings
reject raw control characters and understand the standard escapes. -/

/-- JSON insignificant whitespace. -/
def isJsonWs (c : Char) : Bool :=
  c = ' ' || c = '\t' || c = '\n' || c = '\r'

/-- Drop leading JSON whitespace. -/
def skipWs : List Char → List Char
  | [] => []
  | c :: cs => if isJsonWs c then skipWs cs else c :: cs

/-- Value of a hexadecimal digit. -/
def hexVal (c : Char) : Option Nat :=
  if '0' ≤ c ∧ c ≤ '9' then some (c.toNat - 48)
  else if 'a' ≤ c ∧ c ≤ 'f' then some (c.toNat - 87)
  else if 'A' ≤ c ∧ c ≤ 'F' then some (c.toNat - 55)
  else none

/-- Four hexadecimal digits of a `\uXXXX` escape. -/
def parseHex4 : List Char → Option (Nat × List Char)
  | a :: b :: c :: d :: rest => do
    let va ← hexVal a
    let vb ← hexVal b
    let vc ← hexVal c
    let vd ← hexVal d
    pure (va * 4096 + vb * 256 + vc * 16 + vd, rest)
  | _ => none

/-- Single-character JSON escapes. -/
def escCode (c : Char) : Option Char :=
  if c = '"' then some '"'
  else if c = '\\' then some '\\'
  else if c = '/' then some '/'
  else if c = 'b' then some '\x08'
  else if c = 'f' then some '\x0c'
  else if c = 'n' then some '\n'
  else if c = 'r' then some '\r'
  else if c = 't' then some '\t'
  else none

/-- Read the body of a JSON string up to (and past) the closing quote,
returning the decoded characters and the remaining input.  `\uXXXX` escapes
combine surrogate pairs into one scalar; a lone surrogate is rejected (model
scope: Lean `Char` holds Unicode scalars only). -/
def parseStringBody : Nat → List Char → Option (List Char × List Char)
  | 0, _ => none
  | _, [] => none
  | fuel + 1, c :: cs =>
    if c = '"' then some ([], cs)
    else if c = '\\' then
      match cs with
      | [] => none
      | e :: cs' =>
        if e = 'u' then
          match parseHex4 cs' with
          | none => none
          | some (n, cs2) =>
            if 0xd800 ≤ n ∧ n ≤ 0xdbff then
              match cs2 with
              | '\\' :: 'u' :: cs3 =>
                match parseHex4 cs3 with
                | none => none
                | some (m, cs4) =>
                  if 0xdc00 ≤ m ∧ m ≤ 0xdfff then
                    match parseStringBody fuel cs4 with
                    | none => none
                    | some (s, r) =>
                      some (Char.ofNat (0x10000 + (n - 0xd800) * 0x400 + (m - 0xdc00)) :: s, r)
                  else none
              | _ => none
            else if 0xdc00 ≤ n ∧ n ≤ 0xdfff then none
            else
              match parseStringBody fuel cs2 with
              | none => none
              | some (s, r) => some (Char.ofNat n :: s, r)
        else
          match escCode e with
          | none => none
          | some ec =>
            match parseStringBody fuel cs' with
            | none => none
            | some (s, r) => some (ec :: s, r)
    else if c.toNat < 0x20 then none
    else
      match parseStringBody fuel cs with
      | none => none
      | some (s, r) => some (c :: s, r)

/-- Leading run of decimal digits. -/
def spanDigits : List Char → List Char × List Char
  | [] => ([], [])
  | c :: cs =>
    if c.isDigit then
      let (d, r) := spanDigits cs
      (c :: d, r)
    else ([], c :: cs)

/-- Numeric value of a digit run. -/
def natOfDigits (ds : List Char) : Nat :=
  ds.foldl (fun a c => a * 10 + (c.toNat - 48)) 0

/-- Unsigned JSON integer: at least one digit, no redundant leading zero, and
— model scope — no fractional or exponent part. -/
def parseNum (cs : List Char) : Option (Nat × List Char) :=
  match spanDigits cs with
  | ([], _) => none
  | (d :: ds, r) =>
    if d = '0' ∧ ds ≠ [] then none
    else
      match r with
      | '.' :: _ => none
      | 'e' :: _ => none
      | 'E' :: _ => none
      | _ => some (natOfDigits (d :: ds), r)

mutual

/-- Read one JSON value. -/
def parseValue : Nat → List Char → Option (JValue × List Char)
  | 0, _ => none
  | fuel + 1, cs =>
    match skipWs cs with
    | [] => none
    | '"' :: rest =>
      match parseStringBody (rest.length + 1) rest with
      | none => none
      | some (s, r) => some (.jstr (String.mk s), r)
    | '\x7b' :: rest =>
      match skipWs rest with
      | '\x7d' :: r => some (.jobj [], r)
      | _ => parseMembers fuel rest []
    | '[' :: rest =>
      match skipWs rest with
      | ']' :: r => some (.jarr [], r)
      | _ => parseElems fuel rest []
    | 't' :: 'r' :: 'u' :: 'e' :: rest => some (.jbool true, rest)
    | 'f' :: 'a' :: 'l' :: 's' :: 'e' :: rest => some (.jbool false, rest)
    | 'n' :: 'u' :: 'l' :: 'l' :: rest => some (.jnull, rest)
    | '-' :: rest =>
      match parseNum rest with
      | none => none
      | some (n, r) => some (.jnum (-(n : Int)), r)
    | other =>
      match parseNum other with
      | none => none
      | some (n, r) => some (.jnum (n : Int), r)

/-- Read the members of a JSON object (after the opening brace, at least one
member present). -/
def parseMembers : Nat → List Char → List (String × JValue) → Option (JValue × List Char)
  | 0, _, _ => none
  | fuel + 1, cs, acc =>
    match skipWs cs with
    | '"' :: rest =>
      match parseStringBody (rest.length + 1) rest with
      | none => none
      | some (k, r1) =>
        match skipWs r1 with
        | ':' :: r2 =>
          match parseValue fuel r2 with
          | none => none
          | some (v, r3) =>
            match skipWs r3 with
            | ',' :: r4 => parseMembers fuel r4 (acc ++ [(String.mk k, v)])
            | '\x7d' :: r4 => some (.jobj (acc ++ [(String.mk k, v)]), r4)
            | _ => none
        | _ => none
    | _ => none

/-- Read the elements of a JSON array (after the opening bracket, at least one
element present). -/
def parseElems : Nat → List Char → List JValue → Option (JValue × List Char)
  | 0, _, _ => none
  | fuel + 1, cs, acc =>
    match parseValue fuel cs with
    | none => none
    | some (v, r) =>
      match skipWs r with
      | ',' :: r2 => parseElems fuel r2 (acc ++ [v])
      | ']' :: r2 => some (.jarr (acc ++ [v]), r2)
      | _ => none

end

/-- `json.loads`: one JSON document, optionally surrounded by whitespace,
nothing after it. -/
def json_loads (s : String) : Option JValue :=
  match parseValue (2 * s.length + 8) s.data with
  | none => none
  | some (v, rest) => if skipWs rest = [] then some v else none

/-! ## Pydantic v1 field validation

`parse_raw` = `json.loads` + per-field validation.  `json.loads` keeps the
last of duplicate keys; extra keys are ignored (`Extra.ignore` default).
pydantic v1 coerces numbers and booleans into `str` fields and digit strings
and booleans into `int` fields; `None` is admitted only for fields whose
declared default is `None`. -/

/-- Object field lookup, keeping the last of duplicate keys (as `json.loads`
builds the dict). -/
def lookupField : List (String × JValue) → String → Option JValue
  | [], _ => none
  | (k, v) :: fs, key =>
    match lookupField fs key with
    | some w => some w
    | none => if k = key then some v else none

/-- Python `int(s)` on the plain decimal fragment. -/
def parsePyInt (s : String) : Option Int :=
  match s.data with
  | '-' :: ds =>
    if ds.isEmpty then none
    else if ds.all Char.isDigit then some (-(natOfDigits ds : Int)) else none
  | '+' :: ds =>
    if ds.isEmpty then none
    else if ds.all Char.isDigit then some (natOfDigits ds : Int) else none
  | ds =>
    if ds.isEmpty then none
    else if ds.all Char.isDigit then some (natOfDigits ds : Int) else none

/-- pydantic v1 `str` field validation. -/
def pyStr : JValue → Option String
  | .jstr s => some s
  | .jnum n => some (toString n)
  | .jbool b => some (cond b "True" "False")
  | _ => none

/-- pydantic v1 `int` field validation. -/
def pyInt : JValue → Option Int
  | .jnum n => some n
  | .jbool b => some (cond b 1 0)
  | .jstr s => parsePyInt s
  | _ => none

/-- Required `str` field: missing or uncoercible input is a `ValidationError`. -/
def reqStrField (fs : List (String × JValue)) (k : String) : Option String :=
  match lookupField fs k with
  | none => none
  | some v => pyStr v

/-- `int` field with a non-`None` default: missing input takes the default,
present input must coerce. -/
def intFieldD (fs : List (String × JValue)) (k : String) (dflt : Int) : Option Int :=
  match lookupField fs k with
  | none => some dflt
  | some v => pyInt v

/-- Validate one `Item` from a JSON value. -/
def parseItemJ (v : JValue) : Option Item :=
  match v with
  | .jobj fs => do
    let pid ← reqStrField fs "portalid"
    let pay ← reqStrField fs "payload"
    let ts ← intFieldD fs "servertimestamp" 0
    pure ⟨pid, pay, ts⟩
  | _ => none

/-- Validate a list of `Item`s. -/
def parseItemList : List JValue → Option (List Item)
  | [] => some []
  | v :: vs => do
    let i ← parseItemJ v
    let is ← parseItemList vs
    pure (i :: is)

/-- Validate one `Portal` from a JSON value. -/
def parsePortalJ (v : JValue) : Option Portal :=
  match v with
  | .jobj fs => do
    let pid ← reqStrField fs "portalid"
    let ts ← intFieldD fs "servertimestamp" 0
    pure ⟨pid, ts⟩
  | _ => none

/-- Validate a list of `Portal`s. -/
def parsePortalList : List JValue → Option (List Portal)
  | [] => some []
  | v :: vs => do
    let p ← parsePortalJ v
    let ps ← parsePortalList vs
    pure (p :: ps)

/-- `SetItemRequest(items=items)` on the python-level argument (modelled as a
JSON-like value; `None` is `jnull`): the required `list[Item]` field. -/
def parseSetItemRequest (items : JValue) : Option SetItemRequest :=
  match items with
  | .jarr vs =>
    match parseItemList vs with
    | none => none
    | some is => some ⟨is⟩
  | _ => none

/-- `GetItemRequest(portals=portals, mode=mode, schedule=schedule,
cutoff=cutoff)`: required `list[Portal]`; `mode` and `schedule` are `Literal`
fields restricted to their enumerated values; `cutoff` is a plain `int` with
no further constraint. -/
def parseGetItemRequest (portals : JValue) (mode schedule : String) (cutoff : Int) :
    Option GetItemRequest :=
  match portals with
  | .jarr vs =>
    match parsePortalList vs with
    | none => none
    | some ps =>
      if mode = "probe" ∨ mode = "watch" ∨ mode = "stream" then
        if schedule = "LIFO" ∨ schedule = "FIFO" then
          some ⟨ps, mode, schedule, cutoff⟩
        else none
      else none
  | _ => none

/-- `ReceivedData.parse_raw`: optional `items` (default `None`). -/
def parseReceivedData (s : String) : Option ReceivedData :=
  match json_loads s with
  | some (.jobj fs) =>
    match lookupField fs "items" with
    | none => some ⟨none⟩
    | some .jnull => some ⟨none⟩
    | some (.jarr vs) =>
      match parseItemList vs with
      | none => none
      | some is => some ⟨some is⟩
    | some _ => none
  | _ => none

/-- Validate the `Error` sub-model: integer fields default `0`, optional
`errormessage`. -/
def parseErrorJ (v : JValue) : Option Error :=
  match v with
  | .jobj fs => do
    let g ← intFieldD fs "errorgroup" 0
    let c ← intFieldD fs "errorcode" 0
    let m ← match lookupField fs "errormessage" with
      | none => some none
      | some .jnull => some none
      | some w => (pyStr w).map some
    pure ⟨g, c, m⟩
  | _ => none

/-- `ReceivedError.parse_raw`: optional `error` (default `None`). -/
def parseReceivedError (s : String) : Option ReceivedError :=
  match json_loads s with
  | some (.jobj fs) =>
    match lookupField fs "error" with
    | none => some ⟨none⟩
    | some .jnull => some ⟨none⟩
    | some v =>
      match parseErrorJ v with
      | none => none
      | some e => some ⟨some e⟩
  | _ => none

/-- `LoginResponseData.parse_raw`: `servertimestamp` defaults to `0`. -/
def parseLoginResponseData (s : String) : Option LoginResponseData :=
  match json_loads s with
  | some (.jobj fs) =>
    match intFieldD fs "servertimestamp" 0 with
    | none => none
    | some ts => some ⟨ts⟩
  | _ => none

/-! ## Transport and observable outcomes

Network I/O is an explicit argument: a call either reaches the server (a
status and a body — plus, for the async streaming reader, the body split into
the chunks `async for line in response.content` yields) or fails at the
transport level.  The outcome records everything a caller or test can
observe: logger warnings, whether (and with which serialized body) a request
was issued, the yielded items, the raised exception, and whether the
operation closed the session's transport handle. -/

/-- `logging.warning` events emitted by the operations.  Each constructor
stands for one exact format string of the source (none of which mentions an
endpoint URL): `"Set item failed. Request conversion to json: %s"`,
`"Set item failed. Serialized json request size exceeds API limit"`,
`"Get item failed. Request conversion to json: %s"`,
`"Get item failed. Serialized json request size exceeds API limit"`,
`"Get item failed. Serialized json response size exceeds API limit"`,
`"Get item failed. Empty response"`. -/
inductive LogEvent where
  | setConversionFailed
  | setSizeExceeded
  | getConversionFailed
  | getSizeExceeded
  | getResponseSizeExceeded
  | getEmptyResponse
deriving DecidableEq

/-- A python exception as caught by the operations' `except Exception as ex`
handlers; `str` is the text interpolated into the wrapping message.  The
placeholder texts of the non-`XRTCException` constructors abstract pydantic's
and python's own rendering, which no claim inspects. -/
inductive PyExc where
  | xrtc (e : XRTCException)
  | validationError
  | attributeError
  | typeError
  | transport (msg : String)
deriving DecidableEq

/-- `str(ex)` for a caught exception (`str` of an `XRTCException` is its
stored message). -/
def PyExc.str : PyExc → String
  | .xrtc e => e.message
  | .validationError => "pydantic validation error"
  | .attributeError => "NoneType attribute error"
  | .typeError => "type error"
  | .transport m => m

/-- An HTTP answer: status code and body text. -/
structure HttpResponse where
  status : Nat
  text : String
deriving DecidableEq

/-- An HTTP answer as the async streaming reader sees it: `text` is the full
body (read by the non-200 branches), `chunks` the newline-delimited units
`async for line in response.content` yields on status 200. -/
structure StreamResponse where
  status : Nat
  text : String
  chunks : List String
deriving DecidableEq

/-- What one outbound exchange encounters. -/
inductive Net (ρ : Type) where
  | ok (resp : ρ)
  | transportError (msg : String)
deriving DecidableEq

/-- The python-level arguments of `get_item`, with their declared defaults
(`portals=None` is `jnull`). -/
structure GetArgs where
  portals : JValue := .jnull
  mode : String := "probe"
  schedule : String := "LIFO"
  cutoff : Int := -1

/-- Observable outcome of `set_item`. -/
structure SetOutcome where
  logs : List LogEvent
  sent : Option String
  error : Option XRTCException
  sessionClosed : Bool
deriving DecidableEq

/-- Observable outcome of `get_item` (a generator: `emitted` are the yielded
items, in order, up to the point the generator ends or raises). -/
structure GetOutcome where
  logs : List LogEvent
  sent : Option String
  emitted : List Item
  error : Option XRTCException
  sessionClosed : Bool
deriving DecidableEq

/-- Observable outcome of opening a session (`__enter__`/`__aenter__`). -/
structure LoginOutcome where
  login_time : Int
  error : Option XRTCException
  sessionClosed : Bool
deriving DecidableEq

/-- Shared non-200 handling of all operations: on 400/401 read the structured
error body (`ReceivedError.parse_raw(text).error.errormessage`) and raise an
`XRTCException` carrying `pre ++ errormessage` tagged with `url`; a missing
`error` object makes the attribute access raise, a `None` message makes the
string concatenation in `XRTCException.__init__` raise; any other non-200
status raises `pre ++ "Code: " ++ status`.  Returns the exception the branch
raises inside the `try`, or `none` on status 200. -/
def statusExc (url : String) (pre : String) (resp : HttpResponse) : Option PyExc :=
  if resp.status = 200 then none
  else if resp.status = 400 ∨ resp.status = 401 then
    match parseReceivedError resp.text with
    | none => some .validationError
    | some r =>
      match r.error with
      | none => some .attributeError
      | some e =>
        match e.errormessage with
        | none => some .typeError
        | some m => some (.xrtc (.withUrl url (pre ++ m)))
  else some (.xrtc (.withUrl url (pre ++ "Code: " ++ toString resp.status)))

/-! ## `XRTC` — the synchronous context manager
(`src/xrtc/api/context_manager.py`) -/

namespace XRTC

/-- The `except Exception` handler of `__enter__`: close the session and
re-raise wrapped, tagged with the login URL. -/
def loginWrap (cfg : ConnectionConfiguration) (ex : PyExc) : XRTCException :=
  .withUrl cfg.login_url ("Login failed. Message: " ++ ex.str)

/-- `XRTC.__enter__`: open the transport, post the credentials, and handle
the answer.  Every failing branch raises inside the `try`, so it is wrapped
by the handler — which closes the session — before reaching the caller;
`login_time` is written only on a parsed 200. -/
def enter (cfg : ConnectionConfiguration) (net : Net HttpResponse) : LoginOutcome :=
  match net with
  | .transportError m => ⟨0, some (loginWrap cfg (.transport m)), true⟩
  | .ok resp =>
    match statusExc cfg.login_url "" resp with
    | some ex => ⟨0, some (loginWrap cfg ex), true⟩
    | none =>
      match parseLoginResponseData resp.text with
      | none => ⟨0, some (loginWrap cfg .validationError), true⟩
      | some d => ⟨d.servertimestamp, none, false⟩

/-- `XRTC.set_item`, after the request body has been serialized: size gate,
then the exchange; any exception raised in the `try` is caught, the session
closed, and the exception re-raised wrapped and tagged with the set URL. -/
def set_request (cfg : ConnectionConfiguration) (body : String) (net : Net HttpResponse) :
    SetOutcome :=
  if body.length > cfg.serialized_json_size_max then
    ⟨[.setSizeExceeded], none, none, false⟩
  else
    match net with
    | .transportError m =>
      ⟨[], some body, some (.withUrl cfg.set_url ("Set item failed. Message: " ++ m)), true⟩
    | .ok resp =>
      match statusExc cfg.set_url "" resp with
      | none => ⟨[], some body, none, false⟩
      | some ex =>
        ⟨[], some body, some (.withUrl cfg.set_url ("Set item failed. Message: " ++ ex.str)), true⟩

/-- `XRTC.set_item`: serialize the items into a `SetItemRequest`; a
conversion failure is logged and swallowed (plain `return`), then the
request proceeds. -/
def set_item (cfg : ConnectionConfiguration) (items : JValue) (net : Net HttpResponse) :
    SetOutcome :=
  match parseSetItemRequest items with
  | none => ⟨[.setConversionFailed], none, none, false⟩
  | some req => set_request cfg (renderSetItemRequest req) net

/-- The 200 branch of `XRTC.get_item`: the whole response text is handled as
one unit — an oversized or empty text is logged and the generator simply
returns; otherwise it is decoded as `ReceivedData` (a decoding failure
raises, is caught, closes the session and is re-raised wrapped) and its
items, if any, are yielded in order. -/
def get_body (cfg : ConnectionConfiguration) (sentBody : String) (t : String) : GetOutcome :=
  if t.length > cfg.serialized_json_size_max then
    ⟨[.getResponseSizeExceeded], some sentBody, [], none, false⟩
  else if t.length = 0 then
    ⟨[.getEmptyResponse], some sentBody, [], none, false⟩
  else
    match parseReceivedData t with
    | none =>
      ⟨[], some sentBody, [],
        some (.withUrl cfg.get_url ("Get item failed. Message: " ++ PyExc.str .validationError)),
        true⟩
    | some d => ⟨[], some sentBody, d.items.getD [], none, false⟩

/-- `XRTC.get_item` after serialization: size gate, exchange, status
handling (the sync variant prefixes its structured messages with
`"Get item failed. "`), then the single-body decode. -/
def get_request (cfg : ConnectionConfiguration) (body : String) (net : Net HttpResponse) :
    GetOutcome :=
  if body.length > cfg.serialized_json_size_max then
    ⟨[.getSizeExceeded], none, [], none, false⟩
  else
    match net with
    | .transportError m =>
      ⟨[], some body, [], some (.withUrl cfg.get_url ("Get item failed. Message: " ++ m)), true⟩
    | .ok resp =>
      match statusExc cfg.get_url "Get item failed. " resp with
      | some ex =>
        ⟨[], some body, [],
          some (.withUrl cfg.get_url ("Get item failed. Message: " ++ ex.str)), true⟩
      | none => get_body cfg body resp.text

/-- `XRTC.get_item`: validate and serialize the `GetItemRequest` (failures
are logged and swallowed, yielding nothing), then run the exchange. -/
def get_item (cfg : ConnectionConfiguration) (a : GetArgs) (net : Net HttpResponse) :
    GetOutcome :=
  match parseGetItemRequest a.portals a.mode a.schedule a.cutoff with
  | none => ⟨[.getConversionFailed], none, [], none, false⟩
  | some req => get_request cfg (renderGetItemRequest req) net

end XRTC

/-! ## `AXRTC` — the asynchronous context manager
(`src/xrtc/api/async_context_manager.py`) -/

namespace AXRTC

/-- The `except Exception` handler of `__aenter__` (same messages as the sync
variant). -/
def loginWrap (cfg : ConnectionConfiguration) (ex : PyExc) : XRTCException :=
  .withUrl cfg.login_url ("Login failed. Message: " ++ ex.str)

/-- `AXRTC.__aenter__`: same protocol logic as `XRTC.__enter__`. -/
def enter (cfg : ConnectionConfiguration) (net : Net HttpResponse) : LoginOutcome :=
  match net with
  | .transportError m => ⟨0, some (loginWrap cfg (.transport m)), true⟩
  | .ok resp =>
    match statusExc cfg.login_url "" resp with
    | some ex => ⟨0, some (loginWrap cfg ex), true⟩
    | none =>
      match parseLoginResponseData resp.text with
      | none => ⟨0, some (loginWrap cfg .validationError), true⟩
      | some d => ⟨d.servertimestamp, none, false⟩

/-- `AXRTC.set_item` after serialization (the exchange runs inside
`async with self._requests_semaphore`; the permit accounting is modelled by
the gate transition system below and does not change a single call's
outcome). -/
def set_request (cfg : ConnectionConfiguration) (body : String) (net : Net HttpResponse) :
    SetOutcome :=
  if body.length > cfg.serialized_json_size_max then
    ⟨[.setSizeExceeded], none, none, false⟩
  else
    match net with
    | .transportError m =>
      ⟨[], some body, some (.withUrl cfg.set_url ("Set item failed. Message: " ++ m)), true⟩
    | .ok resp =>
      match statusExc cfg.set_url "" resp with
      | none => ⟨[], some body, none, false⟩
      | some ex =>
        ⟨[], some body, some (.withUrl cfg.set_url ("Set item failed. Message: " ++ ex.str)), true⟩

/-- `AXRTC.set_item`: serialization failures are logged and swallowed, as in
the sync variant. -/
def set_item (cfg : ConnectionConfiguration) (items : JValue) (net : Net HttpResponse) :
    SetOutcome :=
  match parseSetItemRequest items with
  | none => ⟨[.setConversionFailed], none, none, false⟩
  | some req => set_request cfg (renderSetItemRequest req) net

/-- One iteration of the `async for line in get_item_response.content` loop
of `AXRTC.get_item`: an oversized or empty chunk is logged and **skipped**
(`continue`), a chunk that fails to decode raises, and a decoded chunk's
items are yielded in order.  Returns the iteration's log events, yielded
items, and escaping exception, if any. -/
def chunkOutcome (cfg : ConnectionConfiguration) (c : String) :
    List LogEvent × List Item × Option PyExc :=
  if c.length > cfg.serialized_json_size_max then ([.getResponseSizeExceeded], [], none)
  else if c.length = 0 then ([.getEmptyResponse], [], none)
  else
    match parseReceivedData c with
    | none => ([], [], some .validationError)
    | some d => ([], d.items.getD [], none)

/-- The whole chunk loop: iterations run in order and an escaping exception
ends the loop (items yielded by earlier iterations remain delivered). -/
def stream_loop (cfg : ConnectionConfiguration) :
    List String → List LogEvent × List Item × Option PyExc
  | [] => ([], [], none)
  | c :: rest =>
    match chunkOutcome cfg c with
    | (ls, its, some ex) => (ls, its, some ex)
    | (ls, its, none) =>
      (ls ++ (stream_loop cfg rest).1, its ++ (stream_loop cfg rest).2.1,
        (stream_loop cfg rest).2.2)

/-- Final outcome of the 200 branch of `AXRTC.get_item` from the loop's
result: an exception escaping the loop is caught, the session closed, and
the exception re-raised wrapped — items yielded before it remain
delivered. -/
def assemble (cfg : ConnectionConfiguration) (body : String) :
    List LogEvent × List Item × Option PyExc → GetOutcome
  | (ls, its, none) => ⟨ls, some body, its, none, false⟩
  | (ls, its, some ex) =>
    ⟨ls, some body, its,
      some (.withUrl cfg.get_url ("Get item failed. Message: " ++ ex.str)), true⟩

/-- `AXRTC.get_item` after serialization: size gate, exchange, status
handling (the async variant does **not** prefix the structured 400/401
message), then the incremental per-chunk loop. -/
def get_request (cfg : ConnectionConfiguration) (body : String) (net : Net StreamResponse) :
    GetOutcome :=
  if body.length > cfg.serialized_json_size_max then
    ⟨[.getSizeExceeded], none, [], none, false⟩
  else
    match net with
    | .transportError m =>
      ⟨[], some body, [], some (.withUrl cfg.get_url ("Get item failed. Message: " ++ m)), true⟩
    | .ok resp =>
      match statusExc cfg.get_url "" ⟨resp.status, resp.text⟩ with
      | some ex =>
        ⟨[], some body, [],
          some (.withUrl cfg.get_url ("Get item failed. Message: " ++ ex.str)), true⟩
      | none => assemble cfg body (stream_loop cfg resp.chunks)

/-- `AXRTC.get_item`: validate and serialize the `GetItemRequest` (failures
are logged and swallowed, yielding nothing), then run the exchange. -/
def get_item (cfg : ConnectionConfiguration) (a : GetArgs) (net : Net StreamResponse) :
    GetOutcome :=
  match parseGetItemRequest a.portals a.mode a.schedule a.cutoff with
  | none => ⟨[.getConversionFailed], none, [], none, false⟩
  | some req => get_request cfg (renderGetItemRequest req) net

end AXRTC

/-! ## The concurrency gate

`AXRTC.__init__` creates
`asyncio.Semaphore(aiohttp_limit_concurrent_requests)` and every async
set/get exchange runs inside `async with` on it: acquiring a permit starts
an exchange, leaving the block releases it (a step relation models the
interleaving of concurrent tasks).  The synchronous `XRTC` class creates no
semaphore at all — its exchanges start unconditionally. -/

/-- Permit counter of the semaphore and number of in-flight exchanges. -/
structure GateState where
  permits : Nat
  inflight : Nat
deriving DecidableEq

/-- Atomic steps of the async variant: an exchange starts only by consuming a
permit, and returns it when done. -/
inductive AsyncGateStep : GateState → GateState → Prop where
  | acquire (p f : Nat) : AsyncGateStep ⟨p + 1, f⟩ ⟨p, f + 1⟩
  | release (p f : Nat) : AsyncGateStep ⟨p, f + 1⟩ ⟨p + 1, f⟩

/-- The semaphore as initialized by `AXRTC.__init__`. -/
def asyncGateInit (cfg : ConnectionConfiguration) : GateState :=
  ⟨cfg.aiohttp_limit_concurrent_requests, 0⟩

/-- States reachable by interleaved async set/get calls on one session. -/
def AsyncGateReachable (cfg : ConnectionConfiguration) (s : GateState) : Prop :=
  Relation.ReflTransGen AsyncGateStep (asyncGateInit cfg) s

/-- Atomic steps of the sync variant (threads sharing one `XRTC` session):
`context_manager.py` has no semaphore, so an exchange starts
unconditionally. -/
inductive SyncFlightStep : Nat → Nat → Prop where
  | start (f : Nat) : SyncFlightStep f (f + 1)
  | finish (f : Nat) : SyncFlightStep (f + 1) f

/-- In-flight counts reachable by concurrent callers of the sync variant. -/
def SyncFlightReachable (f : Nat) : Prop :=
  Relation.ReflTransGen SyncFlightStep 0 f

/-! ## Concrete inputs used by the verification -/

/-- A 65601-character string: anything containing it serializes past the
65536-character API ceiling. -/
def bigString : String := String.mk (List.replicate 65601 'a')

/-- A syntactically valid items argument whose payload forces the serialized
`SetItemRequest` over the ceiling. -/
def bigItems : JValue := .jarr [.jobj [("portalid", .jstr "p"), ("payload", .jstr bigString)]]

/-- A well-formed items argument (`[{"portalid": "p", "payload": "x"}]`). -/
def goodItems : JValue := .jarr [.jobj [("portalid", .jstr "p"), ("payload", .jstr "x")]]

/-- A well-formed portals argument (`[{"portalid": "p"}]`). -/
def portalsX : JValue := .jarr [.jobj [("portalid", .jstr "p")]]

/-- `get_item` arguments: valid portals, all other parameters default. -/
def gaX : GetArgs := ⟨portalsX, "probe", "LIFO", -1⟩

/-- `get_item` arguments selecting `stream` mode. -/
def gaStream : GetArgs := ⟨portalsX, "stream", "LIFO", -1⟩

/-- The validated request `gaX` produces. -/
def gReqX : GetItemRequest := ⟨[⟨"p", 0⟩], "probe", "LIFO", -1⟩

/-- `gReqX` serialized (`exclude_defaults` drops everything but `portals`). -/
def gBodyX : String := "\x7b\"portals\": [\x7b\"portalid\": \"p\"\x7d]\x7d"

/-- A one-item response chunk. -/
def itemChunk : String := "\x7b\"items\": [\x7b\"portalid\": \"p\", \"payload\": \"x\"\x7d]\x7d"

/-- First of three stream chunks. -/
def chunk1 : String := "\x7b\"items\": [\x7b\"portalid\": \"p\", \"payload\": \"x1\"\x7d]\x7d"

/-- Second of three stream chunks. -/
def chunk2 : String := "\x7b\"items\": [\x7b\"portalid\": \"p\", \"payload\": \"x2\"\x7d]\x7d"

/-- Third of three stream chunks. -/
def chunk3 : String := "\x7b\"items\": [\x7b\"portalid\": \"p\", \"payload\": \"x3\"\x7d]\x7d"

/-- The structured 401 login body of the spec's test property. -/
def badKeyBody : String := "\x7b\"error\":\x7b\"errormessage\":\"bad key\"\x7d\x7d"

/-- A structured 400 body for set/get application errors. -/
def deniedBody : String := "\x7b\"error\": \x7b\"errormessage\": \"denied\"\x7d\x7d"

/-- The probe-mode response body of the spec's test property. -/
def probeBody : String :=
  "\x7b\"items\":[\x7b\"portalid\":\"p\",\"payload\":\"x\",\"servertimestamp\":5\x7d]\x7d"

/-- A well-formed response body carrying no items. -/
def emptyItemsBody : String := "\x7b\"items\": []\x7d"

/-- A validated request with non-default mode, schedule and cutoff. -/
def gReqWatch : GetItemRequest := ⟨[⟨"p", 0⟩], "watch", "FIFO", -7⟩

/-! ## Helper lemmas -/

theorem hex4_length (n : Nat) : (hex4 n).length = 4 := rfl

theorem strLengthData (s : String) : s.length = s.data.length := rfl

theorem escapeChar_length_pos (c : Char) : 1 ≤ (escapeChar c).length := by
  unfold escapeChar
  repeat' split
  all_goals first
  | decide
  | simp [String.length_append, hex4_length, String.length_mk]

theorem escChars_length_ge (cs : List Char) : cs.length ≤ (escChars cs).length := by
  induction cs with
  | nil => simp [escChars]
  | cons c cs ih =>
    have h := escapeChar_length_pos c
    simp only [escChars, String.length_append, List.length_cons]
    omega

theorem renderStr_length_ge (s : String) : s.length ≤ (renderStr s).length := by
  have h := escChars_length_ge s.data
  rw [strLengthData]
  simp only [renderStr, String.length_append]
  omega

theorem renderItemED_payload_le (i : Item) : i.payload.length ≤ (renderItemED i).length := by
  have h := renderStr_length_ge i.payload
  simp only [renderItemED, String.length_append]
  omega

theorem renderSet_single_payload_le (i : Item) :
    i.payload.length ≤ (renderSetItemRequest ⟨[i]⟩).length := by
  have h := renderItemED_payload_le i
  simp only [renderSetItemRequest, renderItemList, String.length_append]
  omega

theorem bigString_length : bigString.length = 65601 := by
  simp only [bigString, String.length_mk, List.length_replicate]

theorem statusExc_200 (url pre t : String) : statusExc url pre ⟨200, t⟩ = none := rfl

theorem bigSet_overflow :
    (renderSetItemRequest ⟨[⟨"p", bigString, 0⟩]⟩).length >
      defaultConfig.serialized_json_size_max := by
  have h := renderSet_single_payload_le ⟨"p", bigString, 0⟩
  have hb : bigString.length = 65601 := bigString_length
  simp only [defaultConfig] at *
  change bigString.length ≤ _ at h
  omega

theorem bigBody_overflow :
    (bigString ++ "\n" ++ itemChunk).length > defaultConfig.serialized_json_size_max := by
  have hb := bigString_length
  change _ > 65536
  simp only [String.length_append]
  omega

theorem bigChunk_overflow : bigString.length > defaultConfig.serialized_json_size_max := by
  have hb := bigString_length
  change _ > 65536
  omega

/-! ## Claim C1 -/

/-- C1 counterexample.  The claim states that a batch whose serialized form
exceeds 65536 characters makes `set_item` raise a `ProtocolError` tagged with
the set endpoint URL.  On the oversized batch `bigItems` the code instead
logs `"Set item failed. Serialized json request size exceeds API limit"` and
returns silently: no exception is raised (`error = none`) and no network
request is issued (`sent = none`). -/
theorem C1_counterexample :
    XRTC.set_item defaultConfig bigItems (.ok ⟨200, ""⟩) =
      ⟨[.setSizeExceeded], none, none, false⟩ := by
  have step : XRTC.set_item defaultConfig bigItems (.ok ⟨200, ""⟩) =
      XRTC.set_request defaultConfig (renderSetItemRequest ⟨[⟨"p", bigString, 0⟩]⟩)
        (.ok ⟨200, ""⟩) := rfl
  rw [step]
  unfold XRTC.set_request
  rw [if_pos bigSet_overflow]

/-- C1 (amended): for every Set call that fails locally — the items cannot be
validated into a `SetItemRequest`, or the serialized JSON exceeds the size
ceiling — `set_item` (sync and async alike) emits exactly one logger warning
and returns silently: it raises nothing and issues no network request. -/
theorem C1_theorem (cfg : ConnectionConfiguration) (items : JValue) (net : Net HttpResponse)
    (h : parseSetItemRequest items = none ∨
      ∃ req, parseSetItemRequest items = some req ∧
        (renderSetItemRequest req).length > cfg.serialized_json_size_max) :
    ((XRTC.set_item cfg items net).sent = none ∧ (XRTC.set_item cfg items net).error = none ∧
      (XRTC.set_item cfg items net).logs.length = 1) ∧
    ((AXRTC.set_item cfg items net).sent = none ∧ (AXRTC.set_item cfg items net).error = none ∧
      (AXRTC.set_item cfg items net).logs.length = 1) := by
  rcases h with h | ⟨req, hp, hlen⟩
  · unfold XRTC.set_item AXRTC.set_item
    rw [h]
    exact ⟨⟨rfl, rfl, rfl⟩, ⟨rfl, rfl, rfl⟩⟩
  · unfold XRTC.set_item AXRTC.set_item
    rw [hp]
    unfold XRTC.set_request AXRTC.set_request
    simp only [if_pos hlen]
    simp

/-- C1 witness: `set_item(None)` (unserializable items) yields no request and
no exception. -/
theorem C1_witness :
    (XRTC.set_item defaultConfig .jnull (.ok ⟨200, ""⟩)).sent = none ∧
    (XRTC.set_item defaultConfig .jnull (.ok ⟨200, ""⟩)).error = none :=
  ⟨(C1_theorem defaultConfig .jnull (.ok ⟨200, ""⟩) (Or.inl rfl)).1.1,
   (C1_theorem defaultConfig .jnull (.ok ⟨200, ""⟩) (Or.inl rfl)).1.2.1⟩

/-! ## Reduction lemmas for the get pipeline -/

theorem XRTC_get_item_eq (cfg : ConnectionConfiguration) (a : GetArgs) (net : Net HttpResponse)
    (req : GetItemRequest)
    (hreq : parseGetItemRequest a.portals a.mode a.schedule a.cutoff = some req) :
    XRTC.get_item cfg a net = XRTC.get_request cfg (renderGetItemRequest req) net := by
  unfold XRTC.get_item
  rw [hreq]

theorem AXRTC_get_item_eq (cfg : ConnectionConfiguration) (a : GetArgs) (net : Net StreamResponse)
    (req : GetItemRequest)
    (hreq : parseGetItemRequest a.portals a.mode a.schedule a.cutoff = some req) :
    AXRTC.get_item cfg a net = AXRTC.get_request cfg (renderGetItemRequest req) net := by
  unfold AXRTC.get_item
  rw [hreq]

theorem XRTC_get_request_200 (cfg : ConnectionConfiguration) (body t : String)
    (hfit : ¬ body.length > cfg.serialized_json_size_max) :
    XRTC.get_request cfg body (.ok ⟨200, t⟩) = XRTC.get_body cfg body t := by
  unfold XRTC.get_request
  rw [if_neg hfit]
  rfl

theorem AXRTC_get_request_200 (cfg : ConnectionConfiguration) (body t : String)
    (chunks : List String) (hfit : ¬ body.length > cfg.serialized_json_size_max) :
    AXRTC.get_request cfg body (.ok ⟨200, t, chunks⟩) =
      AXRTC.assemble cfg body (AXRTC.stream_loop cfg chunks) := by
  unfold AXRTC.get_request
  rw [if_neg hfit]
  rfl

theorem stream_loop_cons (cfg : ConnectionConfiguration) (c : String) (rest : List String) :
    AXRTC.stream_loop cfg (c :: rest) =
      match AXRTC.chunkOutcome cfg c with
      | (ls, its, some ex) => (ls, its, some ex)
      | (ls, its, none) =>
        (ls ++ (AXRTC.stream_loop cfg rest).1, its ++ (AXRTC.stream_loop cfg rest).2.1,
          (AXRTC.stream_loop cfg rest).2.2) := rfl

theorem chunkOutcome_big (cfg : ConnectionConfiguration) (c : String)
    (h : c.length > cfg.serialized_json_size_max) :
    AXRTC.chunkOutcome cfg c = ([.getResponseSizeExceeded], [], none) := by
  unfold AXRTC.chunkOutcome
  rw [if_pos h]

theorem chunkOutcome_empty (cfg : ConnectionConfiguration) (c : String) (h : c.length = 0) :
    AXRTC.chunkOutcome cfg c = ([.getEmptyResponse], [], none) := by
  have hm : ¬ c.length > cfg.serialized_json_size_max := by omega
  unfold AXRTC.chunkOutcome
  rw [if_neg hm, if_pos h]

theorem chunkOutcome_parsed (cfg : ConnectionConfiguration) (c : String) (d : ReceivedData)
    (hd : parseReceivedData c = some d) (h1 : ¬ c.length > cfg.serialized_json_size_max)
    (h2 : ¬ c.length = 0) :
    AXRTC.chunkOutcome cfg c = ([], d.items.getD [], none) := by
  unfold AXRTC.chunkOutcome
  rw [if_neg h1, if_neg h2, hd]

theorem chunkOutcome_undecodable (cfg : ConnectionConfiguration) (c : String)
    (hd : parseReceivedData c = none) (h1 : ¬ c.length > cfg.serialized_json_size_max)
    (h2 : ¬ c.length = 0) :
    AXRTC.chunkOutcome cfg c = ([], [], some .validationError) := by
  unfold AXRTC.chunkOutcome
  rw [if_neg h1, if_neg h2, hd]

/-! ## Claim C2 -/

/-- C2 (amended): an oversized or empty response chunk is logged (by a
message that carries no endpoint URL) and is not fatal in the claimed sense:
the sync variant ends the iteration normally — no exception, zero items —
and the async loop skips the chunk and continues with the remaining
chunks. -/
theorem C2_theorem (cfg : ConnectionConfiguration) (a : GetArgs) (req : GetItemRequest)
    (t : String) (rest : List String)
    (hreq : parseGetItemRequest a.portals a.mode a.schedule a.cutoff = some req)
    (hfit : ¬ (renderGetItemRequest req).length > cfg.serialized_json_size_max) :
    (t.length > cfg.serialized_json_size_max →
      XRTC.get_item cfg a (.ok ⟨200, t⟩) =
        ⟨[.getResponseSizeExceeded], some (renderGetItemRequest req), [], none, false⟩ ∧
      AXRTC.stream_loop cfg (t :: rest) =
        (.getResponseSizeExceeded :: (AXRTC.stream_loop cfg rest).1,
          (AXRTC.stream_loop cfg rest).2.1, (AXRTC.stream_loop cfg rest).2.2)) ∧
    (t.length = 0 →
      XRTC.get_item cfg a (.ok ⟨200, t⟩) =
        ⟨[.getEmptyResponse], some (renderGetItemRequest req), [], none, false⟩ ∧
      AXRTC.stream_loop cfg (t :: rest) =
        (.getEmptyResponse :: (AXRTC.stream_loop cfg rest).1,
          (AXRTC.stream_loop cfg rest).2.1, (AXRTC.stream_loop cfg rest).2.2)) := by
  have hsync : XRTC.get_item cfg a (.ok ⟨200, t⟩) =
      XRTC.get_body cfg (renderGetItemRequest req) t := by
    rw [XRTC_get_item_eq cfg a _ req hreq, XRTC_get_request_200 cfg _ t hfit]
  constructor
  · intro hbig
    refine ⟨?_, ?_⟩
    · rw [hsync]
      unfold XRTC.get_body
      rw [if_pos hbig]
    · rw [stream_loop_cons, chunkOutcome_big cfg t hbig]
      rfl
  · intro h0
    have hnbig : ¬ t.length > cfg.serialized_json_size_max := by omega
    refine ⟨?_, ?_⟩
    · rw [hsync]
      unfold XRTC.get_body
      rw [if_neg hnbig, if_pos h0]
    · rw [stream_loop_cons, chunkOutcome_empty cfg t h0]
      rfl

/-- C2 witness: a 200 answer with empty body makes the sync Get log and end
with zero items and no exception. -/
theorem C2_witness :
    XRTC.get_item defaultConfig gaX (.ok ⟨200, ""⟩) =
      ⟨[.getEmptyResponse], some gBodyX, [], none, false⟩ :=
  ((C2_theorem defaultConfig gaX gReqX "" [] rfl (by decide)).2 rfl).1

/-- C2 counterexample.  The claim states an empty or oversized chunk makes
the Get raise an error tagged with the get endpoint URL and never treat the
chunk as zero items.  On an empty 200 body the sync variant raises nothing
(`error = none`) and yields zero items, its only report being an untagged
log line; the async variant even continues past the empty chunk and emits
the items of the next chunk. -/
theorem C2_counterexample :
    (XRTC.get_item defaultConfig gaX (.ok ⟨200, ""⟩)).error = none ∧
    (XRTC.get_item defaultConfig gaX (.ok ⟨200, ""⟩)).logs = [.getEmptyResponse] ∧
    (AXRTC.get_item defaultConfig gaX (.ok ⟨200, "", ["", itemChunk]⟩)).error = none ∧
    (AXRTC.get_item defaultConfig gaX (.ok ⟨200, "", ["", itemChunk]⟩)).emitted =
      [⟨"p", "x", 0⟩] :=
  ⟨rfl, rfl, rfl, rfl⟩

/-! ## Claim C3 -/

/-- C3: a login answered 400/401 with a structured error body raises (in
both variants) an exception whose message contains the server's
`errormessage` verbatim, with the session closed before the caller observes
the error and `login_time` still `0`. -/
theorem C3_theorem (cfg : ConnectionConfiguration) (status : Nat) (body m : String)
    (hs : status = 400 ∨ status = 401)
    (hp : ∃ e, parseReceivedError body = some ⟨some e⟩ ∧ e.errormessage = some m) :
    ∃ exc, XRTC.enter cfg (.ok ⟨status, body⟩) = ⟨0, some exc, true⟩ ∧
      AXRTC.enter cfg (.ok ⟨status, body⟩) = ⟨0, some exc, true⟩ ∧
      ∃ p, exc.message = p ++ m := by
  obtain ⟨e, hpe, hm⟩ := hp
  have hstat : statusExc cfg.login_url "" ⟨status, body⟩ =
      some (.xrtc (.withUrl cfg.login_url ("" ++ m))) := by
    unfold statusExc
    rcases hs with h | h <;> subst h <;> simp [hpe, hm]
  have h1 : XRTC.enter cfg (.ok ⟨status, body⟩) =
      match statusExc cfg.login_url "" ⟨status, body⟩ with
      | some ex => ⟨0, some (XRTC.loginWrap cfg ex), true⟩
      | none =>
        match parseLoginResponseData body with
        | none => ⟨0, some (XRTC.loginWrap cfg .validationError), true⟩
        | some d => ⟨d.servertimestamp, none, false⟩ := rfl
  have h2 : AXRTC.enter cfg (.ok ⟨status, body⟩) =
      match statusExc cfg.login_url "" ⟨status, body⟩ with
      | some ex => ⟨0, some (AXRTC.loginWrap cfg ex), true⟩
      | none =>
        match parseLoginResponseData body with
        | none => ⟨0, some (AXRTC.loginWrap cfg .validationError), true⟩
        | some d => ⟨d.servertimestamp, none, false⟩ := rfl
  rw [h1, h2, hstat]
  refine ⟨_, rfl, rfl, ?_⟩
  refine ⟨"XRTC URL: " ++ cfg.login_url ++ ": " ++ "Login failed. Message: " ++
    ("XRTC URL: " ++ cfg.login_url ++ ": "), ?_⟩
  simp [XRTC.loginWrap, XRTCException.withUrl, PyExc.str, String.ext_iff, String.data_append]

/-- C3 witness: the spec's own test vector — a 401 with
`{"error":{"errormessage":"bad key"}}`. -/
theorem C3_witness :
    (∃ e, parseReceivedError badKeyBody = some ⟨some e⟩ ∧ e.errormessage = some "bad key") ∧
    ∃ exc, XRTC.enter defaultConfig (.ok ⟨401, badKeyBody⟩) = ⟨0, some exc, true⟩ ∧
      AXRTC.enter defaultConfig (.ok ⟨401, badKeyBody⟩) = ⟨0, some exc, true⟩ ∧
      ∃ p, exc.message = p ++ "bad key" :=
  ⟨⟨⟨0, 0, some "bad key"⟩, rfl, rfl⟩,
   C3_theorem defaultConfig 401 badKeyBody "bad key" (Or.inr rfl)
     ⟨⟨0, 0, some "bad key"⟩, rfl, rfl⟩⟩

/-! ## Claim C4 -/

/-- C4 (amended): the variants agree on every Set call and on every Get call
whose 200 response is a single chunk; they diverge on multi-chunk (stream)
responses, where the sync variant buffers and decodes the whole body as one
unit while the async variant decodes chunk by chunk and skips bad chunks. -/
theorem C4_theorem (cfg : ConnectionConfiguration) (a : GetArgs) (t : String)
    (items : JValue) (net : Net HttpResponse) :
    XRTC.get_item cfg a (.ok ⟨200, t⟩) = AXRTC.get_item cfg a (.ok ⟨200, t, [t]⟩) ∧
    XRTC.set_item cfg items net = AXRTC.set_item cfg items net := by
  constructor
  · cases hreq : parseGetItemRequest a.portals a.mode a.schedule a.cutoff with
    | none =>
      unfold XRTC.get_item AXRTC.get_item
      rw [hreq]
    | some req =>
      rw [XRTC_get_item_eq cfg a _ req hreq, AXRTC_get_item_eq cfg a _ req hreq]
      by_cases hfit : (renderGetItemRequest req).length > cfg.serialized_json_size_max
      · unfold XRTC.get_request AXRTC.get_request
        rw [if_pos hfit, if_pos hfit]
      · rw [XRTC_get_request_200 cfg _ t hfit, AXRTC_get_request_200 cfg _ t [t] hfit]
        rw [stream_loop_cons]
        by_cases hbig : t.length > cfg.serialized_json_size_max
        · rw [chunkOutcome_big cfg t hbig]
          unfold XRTC.get_body
          rw [if_pos hbig]
          rfl
        · by_cases h0 : t.length = 0
          · rw [chunkOutcome_empty cfg t h0]
            unfold XRTC.get_body
            rw [if_neg hbig, if_pos h0]
            rfl
          · cases hd : parseReceivedData t with
            | none =>
              rw [chunkOutcome_undecodable cfg t hd hbig h0]
              unfold XRTC.get_body
              rw [if_neg hbig, if_neg h0, hd]
              rfl
            | some d =>
              rw [chunkOutcome_parsed cfg t d hd hbig h0]
              unfold XRTC.get_body
              rw [if_neg hbig, if_neg h0, hd]
              simp [AXRTC.assemble, AXRTC.stream_loop]
  · unfold XRTC.set_item AXRTC.set_item XRTC.set_request AXRTC.set_request
    rfl

/-- C4 counterexample.  The claim states both variants produce the same
emitted items on every server response sequence.  On the two-chunk sequence
`[bigString, itemChunk]` (delivered to the sync variant as the one body the
chunks concatenate to) the async variant skips the oversized chunk and
emits the item of the second chunk, while the sync variant sees one
oversized body and emits nothing. -/
theorem C4_counterexample :
    (XRTC.get_item defaultConfig gaX (.ok ⟨200, bigString ++ "\n" ++ itemChunk⟩)).emitted =
      [] ∧
    (AXRTC.get_item defaultConfig gaX
        (.ok ⟨200, bigString ++ "\n" ++ itemChunk, [bigString, itemChunk]⟩)).emitted =
      [⟨"p", "x", 0⟩] := by
  have hreq : parseGetItemRequest gaX.portals gaX.mode gaX.schedule gaX.cutoff =
      some gReqX := rfl
  have hfit : ¬ (renderGetItemRequest gReqX).length >
      defaultConfig.serialized_json_size_max := by decide
  constructor
  · rw [XRTC_get_item_eq _ _ _ _ hreq, XRTC_get_request_200 _ _ _ hfit]
    unfold XRTC.get_body
    rw [if_pos bigBody_overflow]
  · rw [AXRTC_get_item_eq _ _ _ _ hreq, AXRTC_get_request_200 _ _ _ _ hfit]
    rw [stream_loop_cons, chunkOutcome_big _ _ bigChunk_overflow]
    rfl

/-! ## Claim C5 -/

/-- C5 (amended): in the async variant the chunk loop is incremental — as
long as no chunk has failed to decode, the output on any extended chunk
sequence extends the output on the prefix: the logs and items of the prefix
are produced from the prefix alone, in order, before any later chunk is
read, and later chunks only append.  (The sync variant has no such
incremental decoding; see the counterexample.) -/
theorem C5_theorem (cfg : ConnectionConfiguration) (pre suf : List String)
    (h : (AXRTC.stream_loop cfg pre).2.2 = none) :
    AXRTC.stream_loop cfg (pre ++ suf) =
      ((AXRTC.stream_loop cfg pre).1 ++ (AXRTC.stream_loop cfg suf).1,
        (AXRTC.stream_loop cfg pre).2.1 ++ (AXRTC.stream_loop cfg suf).2.1,
        (AXRTC.stream_loop cfg suf).2.2) := by
  induction pre with
  | nil => simp [AXRTC.stream_loop]
  | cons c cs ih =>
    have hcons := stream_loop_cons cfg c (cs ++ suf)
    have hcons2 := stream_loop_cons cfg c cs
    rcases hE : AXRTC.chunkOutcome cfg c with ⟨ls, its, e⟩
    rw [hE] at hcons hcons2
    cases e with
    | some ex =>
      rw [hcons2] at h
      simp at h
    | none =>
      rw [hcons2] at h
      simp only at h
      rw [List.cons_append, hcons, hcons2, ih h]
      simp [List.append_assoc]

/-- C5 witness: three one-item chunks — the first chunk's item is already
produced by the one-chunk prefix, and the full sequence appends the items
of the later chunks in written order. -/
theorem C5_witness :
    AXRTC.stream_loop defaultConfig ([chunk1] ++ [chunk2, chunk3]) =
      ([], [⟨"p", "x1", 0⟩, ⟨"p", "x2", 0⟩, ⟨"p", "x3", 0⟩], none) := by
  rw [C5_theorem defaultConfig [chunk1] [chunk2, chunk3] rfl]
  rfl

set_option maxRecDepth 16384 in
/-- C5 counterexample.  The claim states every stream-mode Get emits each
chunk's items as the chunk arrives; the sync variant instead reads the whole
body (the newline-joined chunks) as one unit, fails to decode it, emits
nothing and raises — while the async variant on the same three chunks emits
the three items in order. -/
theorem C5_counterexample :
    (XRTC.get_item defaultConfig gaStream
        (.ok ⟨200, chunk1 ++ "\n" ++ chunk2 ++ "\n" ++ chunk3⟩)).emitted = [] ∧
    (XRTC.get_item defaultConfig gaStream
        (.ok ⟨200, chunk1 ++ "\n" ++ chunk2 ++ "\n" ++ chunk3⟩)).error.isSome = true ∧
    (AXRTC.get_item defaultConfig gaStream
        (.ok ⟨200, chunk1 ++ "\n" ++ chunk2 ++ "\n" ++ chunk3,
          [chunk1, chunk2, chunk3]⟩)).emitted =
      [⟨"p", "x1", 0⟩, ⟨"p", "x2", 0⟩, ⟨"p", "x3", 0⟩] :=
  ⟨rfl, rfl, rfl⟩

/-! ## Claim C6 -/

/-- C6: a probe/watch Get answered 200 with a single well-formed body within
the size ceiling yields exactly the items listed in the body, in server
order, with no error; a body carrying no items yields nothing (`items`
defaults to `none`, and `getD []` then yields the empty emission). -/
theorem C6_theorem (cfg : ConnectionConfiguration) (a : GetArgs) (req : GetItemRequest)
    (t : String) (d : ReceivedData)
    (hreq : parseGetItemRequest a.portals a.mode a.schedule a.cutoff = some req)
    (hfit : ¬ (renderGetItemRequest req).length > cfg.serialized_json_size_max)
    (hd : parseReceivedData t = some d)
    (ht : ¬ t.length > cfg.serialized_json_size_max) (h0 : ¬ t.length = 0) :
    XRTC.get_item cfg a (.ok ⟨200, t⟩) =
      ⟨[], some (renderGetItemRequest req), d.items.getD [], none, false⟩ ∧
    AXRTC.get_item cfg a (.ok ⟨200, t, [t]⟩) =
      ⟨[], some (renderGetItemRequest req), d.items.getD [], none, false⟩ := by
  constructor
  · rw [XRTC_get_item_eq cfg a _ req hreq, XRTC_get_request_200 cfg _ t hfit]
    unfold XRTC.get_body
    rw [if_neg ht, if_neg h0, hd]
  · rw [AXRTC_get_item_eq cfg a _ req hreq, AXRTC_get_request_200 cfg _ t [t] hfit]
    rw [stream_loop_cons, chunkOutcome_parsed cfg t d hd ht h0]
    simp [AXRTC.assemble, AXRTC.stream_loop]

/-- C6 witness: the spec's probe test vector yields exactly the one listed
item. -/
theorem C6_witness :
    XRTC.get_item defaultConfig gaX (.ok ⟨200, probeBody⟩) =
      ⟨[], some gBodyX, [⟨"p", "x", 5⟩], none, false⟩ :=
  (C6_theorem defaultConfig gaX gReqX probeBody ⟨some [⟨"p", "x", 5⟩]⟩ rfl (by decide) rfl
    (by decide) (by decide)).1

/-! ## Claim C7 -/

/-- C7 (amended): in both variants, set/get close the session's transport
handle exactly when they raise — the `except Exception` handler catches even
the operation's own structured-error `XRTCException` and closes the handle
before re-raising, so a 400/401 application error closes the session just as
a transport failure does, and the handle stays open exactly for the calls
that raise nothing. -/
theorem C7_theorem (cfg : ConnectionConfiguration) (items : JValue) (a : GetArgs)
    (net anet : Net HttpResponse) (snet : Net StreamResponse) :
    ((XRTC.set_item cfg items net).sessionClosed = (XRTC.set_item cfg items net).error.isSome) ∧
    ((XRTC.get_item cfg a anet).sessionClosed = (XRTC.get_item cfg a anet).error.isSome) ∧
    ((AXRTC.set_item cfg items net).sessionClosed =
      (AXRTC.set_item cfg items net).error.isSome) ∧
    ((AXRTC.get_item cfg a snet).sessionClosed = (AXRTC.get_item cfg a snet).error.isSome) := by
  refine ⟨?_, ?_, ?_, ?_⟩
  · unfold XRTC.set_item XRTC.set_request
    repeat' split
    all_goals rfl
  · unfold XRTC.get_item XRTC.get_request XRTC.get_body
    repeat' split
    all_goals rfl
  · unfold AXRTC.set_item AXRTC.set_request
    repeat' split
    all_goals rfl
  · unfold AXRTC.get_item AXRTC.get_request AXRTC.assemble
    repeat' split
    all_goals rfl

/-- C7 counterexample.  The claim states a structured 400 application error
leaves the transport handle open.  On a 400 Set answer with a structured
body the code closes the session (`sessionClosed = true`) while raising. -/
theorem C7_counterexample :
    (XRTC.set_item defaultConfig goodItems (.ok ⟨400, deniedBody⟩)).sessionClosed = true ∧
    (XRTC.set_item defaultConfig goodItems (.ok ⟨400, deniedBody⟩)).error.isSome = true :=
  ⟨rfl, rfl⟩

/-! ## Claim C8 -/

/-- C8 (amended): the async variant's semaphore keeps
`permits + inflight` invariant at the configured limit, so no reachable
state has more than the limit in flight, and a step that starts a new
exchange is possible only when a permit is available (the `(N+1)`-th call
suspends).  The sync variant has no gate at all; see the counterexample. -/
theorem C8_theorem :
    (∀ (cfg : ConnectionConfiguration) (s : GateState), AsyncGateReachable cfg s →
      s.permits + s.inflight = cfg.aiohttp_limit_concurrent_requests ∧
      s.inflight ≤ cfg.aiohttp_limit_concurrent_requests) ∧
    (∀ s s' : GateState, AsyncGateStep s s' → s'.inflight = s.inflight + 1 → 0 < s.permits) := by
  constructor
  · intro cfg s h
    have key : s.permits + s.inflight = cfg.aiohttp_limit_concurrent_requests := by
      induction h with
      | refl => rfl
      | tail _ step ih =>
        cases step with
        | acquire p f => simp at ih ⊢; omega
        | release p f => simp at ih ⊢; omega
    exact ⟨key, by omega⟩
  · intro s s' step h
    cases step with
    | acquire p f => simp
    | release p f =>
      simp only at h
      omega

/-- C8 witness: the freshly initialized gate of the default configuration
satisfies the invariant. -/
theorem C8_witness :
    (asyncGateInit defaultConfig).permits + (asyncGateInit defaultConfig).inflight =
      defaultConfig.aiohttp_limit_concurrent_requests ∧
    (asyncGateInit defaultConfig).inflight ≤ defaultConfig.aiohttp_limit_concurrent_requests :=
  C8_theorem.1 defaultConfig (asyncGateInit defaultConfig) Relation.ReflTransGen.refl

/-- C8 counterexample.  The claim states the bound holds in the synchronous
variant as well; but `context_manager.py` creates no semaphore, so two
concurrent callers of a session configured with limit 1 can both be in
flight: the in-flight count 2 is reachable while the claimed bound is 1. -/
theorem C8_counterexample : SyncFlightReachable 2 ∧ ¬ (2 ≤ 1) := by
  constructor
  · exact Relation.ReflTransGen.tail
      (Relation.ReflTransGen.tail Relation.ReflTransGen.refl (SyncFlightStep.start 0))
      (SyncFlightStep.start 1)
  · decide

/-! ## Claim C9 -/

/-- C9 (amended): a submitted `GetItemRequest` always has its mode in
`{probe, watch, stream}` and its schedule in `{LIFO, FIFO}`, and values
outside those sets are rejected before any network activity — but `cutoff`
is passed through unvalidated: every integer, including values below `-1`,
is accepted. -/
theorem C9_theorem :
    (∀ (p : JValue) (m s : String) (c : Int) (r : GetItemRequest),
      parseGetItemRequest p m s c = some r →
        (r.mode = "probe" ∨ r.mode = "watch" ∨ r.mode = "stream") ∧
        (r.schedule = "LIFO" ∨ r.schedule = "FIFO") ∧ r.cutoff = c) ∧
    (∀ (p : JValue) (m s : String) (c : Int),
      ¬ (m = "probe" ∨ m = "watch" ∨ m = "stream") → parseGetItemRequest p m s c = none) ∧
    (∀ (p : JValue) (m s : String) (c : Int),
      ¬ (s = "LIFO" ∨ s = "FIFO") → parseGetItemRequest p m s c = none) := by
  refine ⟨?_, ?_, ?_⟩
  · intro p m s c r h
    unfold parseGetItemRequest at h
    split at h
    · split at h
      · exact absurd h (by simp)
      · split at h
        · split at h
          · injection h with h'
            subst h'
            simp_all
          · exact absurd h (by simp)
        · exact absurd h (by simp)
    · exact absurd h (by simp)
  · intro p m s c hm
    unfold parseGetItemRequest
    split <;> try rfl
    split <;> try rfl
    rw [if_neg hm]
  · intro p m s c hs
    unfold parseGetItemRequest
    split <;> try rfl
    split <;> try rfl
    split <;> rfl

/-- C9 witness: a validated request with non-default mode and schedule has
them inside the enumerated sets, and its cutoff is the given `-7`. -/
theorem C9_witness :
    ((gReqWatch.mode = "probe" ∨ gReqWatch.mode = "watch" ∨ gReqWatch.mode = "stream") ∧
      (gReqWatch.schedule = "LIFO" ∨ gReqWatch.schedule = "FIFO") ∧ gReqWatch.cutoff = -7) :=
  C9_theorem.1 portalsX "watch" "FIFO" (-7) gReqWatch rfl

/-- C9 counterexample.  The claim states `cutoff < -1` is rejected as a
local validation error before any network activity; but `cutoff = -5`
validates and the Get issues its network request. -/
theorem C9_counterexample :
    parseGetItemRequest portalsX "probe" "LIFO" (-5) =
      some ⟨[⟨"p", 0⟩], "probe", "LIFO", -5⟩ ∧
    (XRTC.get_item defaultConfig ⟨portalsX, "probe", "LIFO", -5⟩
        (.ok ⟨200, emptyItemsBody⟩)).sent.isSome = true :=
  ⟨rfl, rfl⟩

/-! ## Claim C10 -/

/-- C10: a `get_item` call whose arguments fail local validation (such as
the default `portals=None`, or portals that do not validate as a list of
`Portal`) yields zero items, raises nothing, and issues no network request,
in both variants.  (That nothing runs before iteration starts is the python
generator semantics the outcome model reflects: the generator's whole body,
validation included, is evaluated only when the returned iterator is
consumed.) -/
theorem C10_theorem (cfg : ConnectionConfiguration) (a : GetArgs)
    (net : Net HttpResponse) (snet : Net StreamResponse)
    (h : parseGetItemRequest a.portals a.mode a.schedule a.cutoff = none) :
    XRTC.get_item cfg a net = ⟨[.getConversionFailed], none, [], none, false⟩ ∧
    AXRTC.get_item cfg a snet = ⟨[.getConversionFailed], none, [], none, false⟩ := by
  unfold XRTC.get_item AXRTC.get_item
  rw [h]
  exact ⟨rfl, rfl⟩

/-- C10 witness: the default `portals=None` fails validation and the call
yields nothing with no request and no exception. -/
theorem C10_witness :
    XRTC.get_item defaultConfig ⟨.jnull, "probe", "LIFO", -1⟩ (.ok ⟨200, emptyItemsBody⟩) =
      ⟨[.getConversionFailed], none, [], none, false⟩ :=
  (C10_theorem defaultConfig ⟨.jnull, "probe", "LIFO", -1⟩ (.ok ⟨200, emptyItemsBody⟩)
    (.ok ⟨200, emptyItemsBody, [emptyItemsBody]⟩) rfl).1

end Xrtc
